import Mathlib

/-!
Shallow embedding of the ComfyUI-on-SageMaker Lambda function
(`src/lambda/lambda_function.py`).

Modelling conventions:
* A ComfyUI workflow document (`prompt_dict`) is a Python dict mapping
  node-identifier strings to node dicts.  Python dicts preserve insertion
  order and have unique keys; we model a dict as an association list and
  dict iteration as a left-to-right traversal.
* A node dict is modelled by the `Node` structure, recording exactly the
  fields the Lambda code touches: `class_type`, `inputs` and `_meta`
  (named `meta` here).  Each is `Option`-valued because Python raises
  `KeyError` when a subscripted key is absent.
* Scalar JSON values are `JValue`; non-scalar values (arrays, nested
  objects, floats) are abstracted as opaque `other` tags, since the code
  only compares values against string constants and writes strings and
  integers.
* Python exceptions are modelled by `Except PyErr`: a raised exception
  aborts the traversal and propagates.
* `random.randint(0, int(1e10))` draws are modelled by an explicit stream
  `draws : Nat → Nat` of drawn values, one per call; `randint(a, b)` in
  Python returns an integer in the closed interval `[a, b]`, so the
  contract of the stream is `∀ j, draws j ≤ 10000000000` (note the
  INCLUSIVE upper bound).
-/

set_option maxRecDepth 4000

namespace ComfyLambda

/-- JSON-like scalar values appearing in workflow documents.  Arrays,
nested objects and floats are abstracted as opaque `other` tags: the
patch functions only compare values against string constants and write
strings and integers, so the abstraction is faithful for them. -/
inductive JValue where
  | str (s : String)
  | num (n : Int)
  | bool (b : Bool)
  | other (tag : Nat)
deriving DecidableEq, Repr

/-- A Python `dict` with string keys and `JValue` values, as an
association list (unique keys, insertion order preserved). -/
abbrev Dict := List (String × JValue)

/-- Python `d[k]` lookup (as an `Option`; callers decide whether a missing
key is a `KeyError` or was guarded by `k in d`). -/
def lookupKey (xs : Dict) (k : String) : Option JValue :=
  match xs with
  | [] => none
  | (k', v) :: rest => if k' = k then some v else lookupKey rest k

/-- Python `d[k] = v`: overwrites the value of an existing key in place
(keeping its position) or appends a new key at the end. -/
def setKey (xs : Dict) (k : String) (v : JValue) : Dict :=
  match xs with
  | [] => [(k, v)]
  | (k', v') :: rest => if k' = k then (k, v) :: rest else (k', v') :: setKey rest k v

/-- A workflow node dict.  Only the fields touched by the Lambda code are
recorded; each is optional because the corresponding key may be absent
from the underlying dict (Python then raises `KeyError` on subscription).
`meta` models the node's `_meta` dict. -/
structure Node where
  class_type : Option JValue
  inputs : Option Dict
  meta : Option Dict
deriving DecidableEq, Repr

/-- A workflow document (`prompt_dict`): node-identifier keys to nodes. -/
abbrev Document := List (String × Node)

/-- Python exceptions that the embedded code can raise. -/
inductive PyErr where
  | keyError
  | fileNotFound
  | jsonDecode
deriving DecidableEq, Repr

/-- Decidable equality of embedded computation results, for evaluating
the patch functions on concrete documents. -/
instance {ε α : Type} [DecidableEq ε] [DecidableEq α] : DecidableEq (Except ε α) := fun a b =>
  match a, b with
  | .ok x, .ok y =>
    if h : x = y then .isTrue (by rw [h]) else .isFalse (by intro hc; cases hc; exact h rfl)
  | .error e, .error e' =>
    if h : e = e' then .isTrue (by rw [h]) else .isFalse (by intro hc; cases hc; exact h rfl)
  | .ok _, .error _ => .isFalse (by intro hc; cases hc)
  | .error _, .ok _ => .isFalse (by intro hc; cases hc)

/-- Traverse the document in iteration order, rewriting each node;
a raised exception aborts the traversal (as in Python, where it
propagates out of the `for` loop). -/
def mapNodesM (f : Node → Except PyErr Node) : Document → Except PyErr Document
  | [] => .ok []
  | (k, n) :: rest =>
    match f n with
    | .error e => .error e
    | .ok n' =>
      match mapNodesM f rest with
      | .error e => .error e
      | .ok rest' => .ok ((k, n') :: rest')

/-- Body of the `update_image_size` loop for one node:
`if "inputs" in node: if node["class_type"] == "EmptySD3LatentImage" and
"height" in node["inputs"]: node["inputs"]["height"] = height;
node["inputs"]["width"] = width`.  Subscripting a missing `class_type`
raises `KeyError`. -/
def updateImageSizeNode (height width : Int) (n : Node) : Except PyErr Node :=
  match n.inputs with
  | none => .ok n
  | some ins =>
    match n.class_type with
    | none => .error .keyError
    | some ct =>
      if ct = JValue.str "EmptySD3LatentImage" ∧ (lookupKey ins "height").isSome then
        .ok { n with inputs := some (setKey (setKey ins "height" (.num height)) "width" (.num width)) }
      else
        .ok n

/-- Embedding of `update_image_size(prompt_dict, height, width)`. -/
def update_image_size (prompt_dict : Document) (height width : Int) : Except PyErr Document :=
  mapNodesM (updateImageSizeNode height width) prompt_dict

/-- Body of the `update_seed` loop for one node.  `r` is the value that
`random.randint(0, int(1e10))` would return if it is called for this
node; the returned flag records whether the draw was consumed (Python
calls `randint` once per matching node when `seed is None`). -/
def updateSeedNode (r : Nat) (seed : Option Int) (n : Node) : Except PyErr (Node × Bool) :=
  match n.inputs with
  | none => .ok (n, false)
  | some ins =>
    match n.class_type with
    | none => .error .keyError
    | some ct =>
      if ct = JValue.str "KSampler" ∧ (lookupKey ins "seed").isSome then
        match seed with
        | none => .ok ({ n with inputs := some (setKey ins "seed" (.num (Int.ofNat r))) }, true)
        | some s => .ok ({ n with inputs := some (setKey ins "seed" (.num s)) }, false)
      else
        .ok (n, false)

/-- The `update_seed` loop, threading the index of the next unused
random draw. -/
def updateSeedGo (draws : Nat → Nat) (seed : Option Int) (j : Nat) :
    Document → Except PyErr Document
  | [] => .ok []
  | (k, n) :: rest =>
    match updateSeedNode (draws j) seed n with
    | .error e => .error e
    | .ok p =>
      match updateSeedGo draws seed (if p.2 then j + 1 else j) rest with
      | .error e => .error e
      | .ok rest' => .ok ((k, p.1) :: rest')

/-- Embedding of `update_seed(prompt_dict, seed=None)`.  `draws` supplies
the successive results of `random.randint(0, int(1e10))` (an inclusive
range: any stream with `∀ j, draws j ≤ 10000000000` is a possible
behaviour of `randint`). -/
def update_seed (draws : Nat → Nat) (prompt_dict : Document) (seed : Option Int) :
    Except PyErr Document :=
  updateSeedGo draws seed 0 prompt_dict

/-- Body of the `update_prompt_text` loop for one node: the `text` input
of a `CLIPTextEncode` node is overwritten only when its current value
equals the sentinel string `"POSITIVE_PROMT_PLACEHOLDER"` (sic). -/
def updatePromptTextNode (positive_prompt : String) (n : Node) : Except PyErr Node :=
  match n.inputs with
  | none => .ok n
  | some ins =>
    match n.class_type with
    | none => .error .keyError
    | some ct =>
      if ct = JValue.str "CLIPTextEncode" ∧ (lookupKey ins "text").isSome then
        if lookupKey ins "text" = some (.str "POSITIVE_PROMT_PLACEHOLDER") then
          .ok { n with inputs := some (setKey ins "text" (.str positive_prompt)) }
        else
          .ok n
      else
        .ok n

/-- Embedding of `update_prompt_text(prompt_dict, positive_prompt)`. -/
def update_prompt_text (prompt_dict : Document) (positive_prompt : String) :
    Except PyErr Document :=
  mapNodesM (updatePromptTextNode positive_prompt) prompt_dict

/-- Body of the `update_lora_name` loop for one node:
`if node["class_type"] == "LoraLoader" and node["_meta"]["title"] ==
"character-lora": node["inputs"]["lora_name"] = lora_name`.  The `and`
short-circuits, so `_meta` is only subscripted (raising `KeyError` when
`_meta` or its `title` key is absent) for `LoraLoader` nodes. -/
def updateLoraNameNode (lora_name : String) (n : Node) : Except PyErr Node :=
  match n.inputs with
  | none => .ok n
  | some ins =>
    match n.class_type with
    | none => .error .keyError
    | some ct =>
      if ct = JValue.str "LoraLoader" then
        match n.meta with
        | none => .error .keyError
        | some m =>
          match lookupKey m "title" with
          | none => .error .keyError
          | some t =>
            if t = JValue.str "character-lora" then
              .ok { n with inputs := some (setKey ins "lora_name" (.str lora_name)) }
            else
              .ok n
      else
        .ok n

/-- Embedding of `update_lora_name(prompt_dict, lora_name)`. -/
def update_lora_name (prompt_dict : Document) (lora_name : String) :
    Except PyErr Document :=
  mapNodesM (updateLoraNameNode lora_name) prompt_dict

/-! Embedding of the handler glue (`invoke_from_prompt` and
`lambda_handler`).  I/O collaborators are explicit parameters:
* the template file on disk is a `TemplateFile` (missing, present but not
  valid JSON, or a parsed `Document`);
* the `ENDPOINT_NAME` environment variable is an `Option String`
  (`os.environ[...]` raises `KeyError` when absent);
* the SageMaker client is a function from the endpoint name and the final
  patched document to the backend response (transport untouched here);
* the request body is an already-lexed `BodyParse` (`json.loads` either
  raises `json.JSONDecodeError` or yields a request object; the fields of
  `Request` follow the request contract's types).
-/

/-- Result of reading `./workflow/<prompt_file>` and `json.loads` on it. -/
inductive TemplateFile where
  | missing
  | invalidJson
  | parsed (d : Document)

/-- The fields that `lambda_handler` extracts from the parsed request
body (`request.get` returns `None`/a default when a key is absent). -/
structure Request where
  positive_prompt : Option String
  lora_name : Option String
  seed : Option Int
  height : Option Int
  width : Option Int

/-- Result of `json.loads(event["body"])`. -/
inductive BodyParse where
  | invalid
  | parsed (r : Request)

/-- The Lambda event: `event.get("body")` is falsy (`None` or empty) or a
string that either fails or succeeds to parse as JSON. -/
structure Event where
  body : Option BodyParse

/-- The response of `sagemaker_client.invoke_endpoint` as consumed by the
handler: reported HTTP status code, content type, and the base64 encoding
of the body bytes. -/
structure BackendResp where
  httpStatus : Nat
  contentType : String
  bodyB64 : String
deriving DecidableEq, Repr

/-- Body of the handler's HTTP response: either the base64-encoded image
or a JSON error object (`json.dumps({"error": ..})`, with an optional
`details` entry), kept structured rather than serialized. -/
inductive RespBody where
  | b64Image (data : String)
  | jsonError (error : String) (details : Option String)
deriving DecidableEq, Repr

/-- The dict returned by `lambda_handler`.  Error responses carry no
`headers` or `isBase64Encoded` keys, modelled as `none`/`false`. -/
structure HandlerResult where
  statusCode : Nat
  headersContentType : Option String
  body : RespBody
  isBase64Encoded : Bool
deriving DecidableEq, Repr

/-- Embedding of `invoke_from_prompt`: load and parse the template, apply
the four patches in the source's order (seed, prompt text, image size,
adapter name), then read `ENDPOINT_NAME` and call the backend. -/
def invoke_from_prompt (template : TemplateFile) (endpointEnv : Option String)
    (invokeEndpoint : String → Document → BackendResp) (draws : Nat → Nat)
    (positive_prompt : String) (lora_name : String) (seed : Option Int)
    (height width : Int) : Except PyErr BackendResp :=
  match template with
  | .missing => .error .fileNotFound
  | .invalidJson => .error .jsonDecode
  | .parsed d => do
    let d ← update_seed draws d seed
    let d ← update_prompt_text d positive_prompt
    let d ← update_image_size d height width
    let d ← update_lora_name d lora_name
    match endpointEnv with
    | none => .error .keyError
    | some ep => .ok (invokeEndpoint ep d)

/-- The handler's 400 response: `{"statusCode": 400, "body":
json.dumps({"error": msg})}`. -/
def resp400 (msg : String) : HandlerResult :=
  { statusCode := 400, headersContentType := none
    body := .jsonError msg none, isBase64Encoded := false }

/-- The handler's 500 response: `{"statusCode": 500, "body":
json.dumps({"error": "Internal server error", "details": str(e)})}`.
The `details` string abstracts Python's `str(e)` by the exception's
class name. -/
def resp500 (e : PyErr) : HandlerResult :=
  { statusCode := 500, headersContentType := none
    body := .jsonError "Internal server error"
      (some (match e with
             | .keyError => "KeyError"
             | .fileNotFound => "FileNotFoundError"
             | .jsonDecode => "JSONDecodeError"))
    isBase64Encoded := false }

/-- Embedding of `lambda_handler`.  The `except` clauses are matched in
source order: `json.JSONDecodeError` (a subclass of `ValueError`, so it
is caught by the first clause wherever it is raised, including for the
template file read inside `invoke_from_prompt`) yields a 400 "Invalid
JSON in request body"; `ValueError` yields a 400 with the message; any
other exception (`KeyError`, `FileNotFoundError`, ...) yields a 500. -/
def lambda_handler (event : Event) (template : TemplateFile)
    (endpointEnv : Option String)
    (invokeEndpoint : String → Document → BackendResp)
    (draws : Nat → Nat) : HandlerResult :=
  match event.body with
  | none => resp400 "Missing request body"
  | some .invalid => resp400 "Invalid JSON in request body"
  | some (.parsed req) =>
    match req.positive_prompt with
    | none => resp400 "Missing required parameter: positive_prompt"
    | some pp =>
      match invoke_from_prompt template endpointEnv invokeEndpoint draws
          pp (req.lora_name.getD "") req.seed
          (req.height.getD 512) (req.width.getD 512) with
      | .error .jsonDecode => resp400 "Invalid JSON in request body"
      | .error e => resp500 e
      | .ok r =>
        { statusCode := r.httpStatus, headersContentType := some r.contentType
          body := .b64Image r.bodyB64, isBase64Encoded := true }

/-! Match predicates: when the body of each patch loop fires for a node.
These transcribe the `if` conditions of the source loops (a node is only
examined at all when it has an `inputs` key). -/

/-- The `update_image_size` loop body fires: the node has `inputs`, its
`class_type` is `"EmptySD3LatentImage"` and `inputs` has a `height` key. -/
def matchesImageSize (n : Node) : Bool :=
  match n.inputs, n.class_type with
  | some ins, some ct =>
    decide (ct = JValue.str "EmptySD3LatentImage") && (lookupKey ins "height").isSome
  | _, _ => false

/-- The `update_seed` loop body fires: the node has `inputs`, its
`class_type` is `"KSampler"` and `inputs` has a `seed` key. -/
def matchesSeed (n : Node) : Bool :=
  match n.inputs, n.class_type with
  | some ins, some ct =>
    decide (ct = JValue.str "KSampler") && (lookupKey ins "seed").isSome
  | _, _ => false

/-- The `update_prompt_text` outer condition fires: the node has `inputs`,
its `class_type` is `"CLIPTextEncode"` and `inputs` has a `text` key. -/
def matchesText (n : Node) : Bool :=
  match n.inputs, n.class_type with
  | some ins, some ct =>
    decide (ct = JValue.str "CLIPTextEncode") && (lookupKey ins "text").isSome
  | _, _ => false

/-- The `update_prompt_text` inner overwrite fires: additionally the
current `text` value equals the placeholder sentinel. -/
def placeholderMatch (n : Node) : Bool :=
  match n.inputs, n.class_type with
  | some ins, some ct =>
    decide (ct = JValue.str "CLIPTextEncode") &&
      decide (lookupKey ins "text" = some (JValue.str "POSITIVE_PROMT_PLACEHOLDER"))
  | _, _ => false

/-- The `update_lora_name` overwrite fires: the node has `inputs`, its
`class_type` is `"LoraLoader"` and its `_meta.title` is
`"character-lora"`. -/
def matchesLora (n : Node) : Bool :=
  match n.inputs, n.class_type with
  | some _, some ct =>
    decide (ct = JValue.str "LoraLoader") &&
      (match n.meta with
       | none => false
       | some m => decide (lookupKey m "title" = some (JValue.str "character-lora")))
  | _, _ => false

/-- Well-formedness of a node dict per the spec's data model (§3: a node
has at least a role): whenever the node has an `inputs` key it also has a
`class_type` key, so subscripting `class_type` cannot raise. -/
def wfNode (n : Node) : Bool :=
  !n.inputs.isSome || n.class_type.isSome

/-- Additional well-formedness needed by `update_lora_name`: a
`LoraLoader` node (with `inputs`) carries a `_meta` dict with a `title`
key, so subscripting `_meta` and `title` cannot raise. -/
def loraSafe (n : Node) : Bool :=
  match n.inputs, n.class_type with
  | some _, some ct =>
    !decide (ct = JValue.str "LoraLoader") ||
      (match n.meta with
       | none => false
       | some m => (lookupKey m "title").isSome)
  | _, _ => true

/-! Concrete documents, requests and collaborator stubs used to
instantiate the theorems on closed inputs. -/

/-- A `CLIPTextEncode` node whose `text` is not the placeholder. -/
def nodeClipHello : Node :=
  { class_type := some (.str "CLIPTextEncode")
    inputs := some [("text", .str "hello")], meta := none }

/-- A one-node document holding `nodeClipHello`. -/
def docClipHello : Document := [("6", nodeClipHello)]

/-- A `CLIPTextEncode` node whose `text` is the placeholder sentinel. -/
def nodeClipPlaceholder : Node :=
  { class_type := some (.str "CLIPTextEncode")
    inputs := some [("text", .str "POSITIVE_PROMT_PLACEHOLDER")], meta := none }

/-- A one-node document holding `nodeClipPlaceholder`. -/
def docPlaceholder : Document := [("6", nodeClipPlaceholder)]

/-- `docPlaceholder` after `update_prompt_text` with `"hello world"`. -/
def docPlaceholderOut : Document :=
  [("6", { class_type := some (.str "CLIPTextEncode")
           inputs := some [("text", .str "hello world")], meta := none })]

/-- A `KSampler` node with a `seed` input. -/
def nodeKSampler : Node :=
  { class_type := some (.str "KSampler")
    inputs := some [("seed", .num 3)], meta := none }

/-- A one-node document holding `nodeKSampler`. -/
def docSeed : Document := [("3", nodeKSampler)]

/-- A stream of `randint(0, int(1e10))` results that always returns the
inclusive upper bound `10^10` — a legal behaviour of `randint`. -/
def drawsMax : Nat → Nat := fun _ => 10000000000

/-- A stream of `randint` results that always returns `7`. -/
def drawsSeven : Nat → Nat := fun _ => 7

/-- `docSeed` after `update_seed` under the `drawsSeven` stream. -/
def docSeedOut : Document :=
  [("3", { class_type := some (.str "KSampler")
           inputs := some [("seed", .num 7)], meta := none })]

/-- An `EmptySD3LatentImage` node with a `height` input but no `width`. -/
def nodeLatentNoWidth : Node :=
  { class_type := some (.str "EmptySD3LatentImage")
    inputs := some [("height", .num 512)], meta := none }

/-- A one-node document holding `nodeLatentNoWidth`. -/
def docLatentNoWidth : Document := [("5", nodeLatentNoWidth)]

/-- `docLatentNoWidth` after `update_image_size` with 768×768: a `width`
key has been appended to the node's `inputs`. -/
def docLatentWide : Document :=
  [("5", { class_type := some (.str "EmptySD3LatentImage")
           inputs := some [("height", .num 768), ("width", .num 768)], meta := none })]

/-- An `EmptySD3LatentImage` node with both `height` and `width` set
to 512, as in the end-to-end scenario. -/
def nodeLatent512 : Node :=
  { class_type := some (.str "EmptySD3LatentImage")
    inputs := some [("height", .num 512), ("width", .num 512)], meta := none }

/-- A node of an unrelated role, untouched by every patch. -/
def nodeOther : Node :=
  { class_type := some (.str "VAEDecode")
    inputs := some [("samples", .other 0)], meta := none }

/-- A `LoraLoader` node with no `_meta` key at all. -/
def nodeLoraNoMeta : Node :=
  { class_type := some (.str "LoraLoader")
    inputs := some [("lora_name", .str "x")], meta := none }

/-- A `LoraLoader` node whose `_meta` dict lacks a `title` key. -/
def nodeLoraEmptyMeta : Node :=
  { class_type := some (.str "LoraLoader")
    inputs := some [("lora_name", .str "x")], meta := some [] }

/-- A node dict that has `inputs` but no `class_type` key. -/
def nodeNoClassType : Node :=
  { class_type := none, inputs := some [("seed", .num 1)], meta := none }

/-- A request carrying only `positive_prompt`. -/
def reqOnlyPrompt : Request :=
  { positive_prompt := some "a handsome man smiling"
    lora_name := none, seed := none, height := none, width := none }

/-- A request with no `positive_prompt` field. -/
def reqNoPrompt : Request :=
  { positive_prompt := none
    lora_name := some "dm7249atlas.safetensors", seed := some 123
    height := some 512, width := some 512 }

/-- A stub SageMaker client returning a fixed successful response. -/
def dummyBackend : String → Document → BackendResp :=
  fun _ _ => { httpStatus := 200, contentType := "image/png", bodyB64 := "aGk=" }

/-- A stream of `randint` results that always returns `0`. -/
def drawsZero : Nat → Nat := fun _ => 0

/-- An event whose body parses to a request with only `positive_prompt`. -/
def eventOnlyPrompt : Event := { body := some (.parsed reqOnlyPrompt) }

/-- A one-node document whose only node has an unrelated role. -/
def docOtherOnly : Document := [("1", nodeOther)]

/-! Dict lemmas: how `lookupKey` and `setKey` interact. -/

theorem lookupKey_setKey_self (xs : Dict) (k : String) (v : JValue) :
    lookupKey (setKey xs k v) k = some v := by
  induction xs with
  | nil => simp [setKey, lookupKey]
  | cons p rest ih =>
    obtain ⟨a, b⟩ := p
    by_cases h : a = k
    · simp [setKey, lookupKey, h]
    · simp [setKey, lookupKey, h, ih]

theorem lookupKey_setKey_ne (xs : Dict) (k k' : String) (v : JValue) (h : k ≠ k') :
    lookupKey (setKey xs k v) k' = lookupKey xs k' := by
  induction xs with
  | nil => simp [setKey, lookupKey, h]
  | cons p rest ih =>
    obtain ⟨a, b⟩ := p
    by_cases ha : a = k
    · subst ha
      simp [setKey, lookupKey, h]
    · simp [setKey, lookupKey, ha, ih]

theorem setKey_setKey_same (xs : Dict) (k : String) (v v' : JValue) :
    setKey (setKey xs k v) k v' = setKey xs k v' := by
  induction xs with
  | nil => simp [setKey]
  | cons p rest ih =>
    obtain ⟨a, b⟩ := p
    by_cases h : a = k
    · simp [setKey, h]
    · simp [setKey, h, ih]

/-- Writes to two distinct keys commute, provided the first key is
already present (so that neither order appends it at the end). -/
theorem setKey_comm_of_isSome (xs : Dict) (k k' : String) (v v' : JValue)
    (hmem : (lookupKey xs k).isSome = true) (hne : k ≠ k') :
    setKey (setKey xs k' v') k v = setKey (setKey xs k v) k' v' := by
  induction xs with
  | nil => simp [lookupKey] at hmem
  | cons p rest ih =>
    obtain ⟨a, b⟩ := p
    by_cases ha : a = k
    · subst ha
      simp [setKey, Ne.symm hne, hne]
    · by_cases ha' : a = k'
      · subst ha'
        simp [setKey, ha]
      · simp [lookupKey, ha, Ne.symm ha] at hmem
        simp [setKey, ha, ha', ih hmem]

/-- Assigning an absent key appends it at the end of the dict. -/
theorem setKey_append_of_none (xs : Dict) (k : String) (v : JValue)
    (h : lookupKey xs k = none) : setKey xs k v = xs ++ [(k, v)] := by
  induction xs with
  | nil => simp [setKey]
  | cons p rest ih =>
    obtain ⟨a, b⟩ := p
    by_cases ha : a = k
    · subst ha
      simp [lookupKey] at h
    · simp [lookupKey, ha, Ne.symm ha] at h
      simp [setKey, ha, ih h]

/-- Assigning a present key leaves the dict's key list unchanged. -/
theorem keys_setKey_of_isSome (xs : Dict) (k : String) (v : JValue)
    (h : (lookupKey xs k).isSome = true) :
    (setKey xs k v).map Prod.fst = xs.map Prod.fst := by
  induction xs with
  | nil => simp [lookupKey] at h
  | cons p rest ih =>
    obtain ⟨a, b⟩ := p
    by_cases ha : a = k
    · subst ha
      simp [setKey]
    · simp [lookupKey, ha, Ne.symm ha] at h
      simp [setKey, ha, ih h]

/-! Structural lemmas about the traversals. -/

/-- A successful traversal relates input and output pointwise: keys are
preserved and each output node is the image of its input node. -/
theorem mapNodesM_ok_forall₂ (f : Node → Except PyErr Node) :
    ∀ (d d' : Document), mapNodesM f d = .ok d' →
      List.Forall₂ (fun p q : String × Node => p.1 = q.1 ∧ f p.2 = .ok q.2) d d' := by
  intro d
  induction d with
  | nil =>
    intro d' h
    simp [mapNodesM] at h
    subst h
    exact List.Forall₂.nil
  | cons p rest ih =>
    intro d' h
    obtain ⟨k, n⟩ := p
    cases hf : f n with
    | error e => simp [mapNodesM, hf] at h
    | ok n' =>
      cases hr : mapNodesM f rest with
      | error e => simp [mapNodesM, hf, hr] at h
      | ok rest' =>
        simp [mapNodesM, hf, hr] at h
        subst h
        exact List.Forall₂.cons ⟨rfl, hf⟩ (ih rest' hr)

/-- If the per-node function fixes every node of the document, the
traversal returns the document unchanged. -/
theorem mapNodesM_id (f : Node → Except PyErr Node) (d : Document)
    (h : ∀ p ∈ d, f p.2 = .ok p.2) : mapNodesM f d = .ok d := by
  induction d with
  | nil => rfl
  | cons p rest ih =>
    obtain ⟨k, n⟩ := p
    have hp : f n = .ok n := h (k, n) (List.mem_cons_self _ _)
    have hr : mapNodesM f rest = .ok rest :=
      ih (fun q hq => h q (List.mem_cons_of_mem _ hq))
    simp [mapNodesM, hp, hr]

/-- Successful traversals concatenate. -/
theorem mapNodesM_append (f : Node → Except PyErr Node)
    (l₁ l₂ l₁' l₂' : Document) (h1 : mapNodesM f l₁ = .ok l₁')
    (h2 : mapNodesM f l₂ = .ok l₂') :
    mapNodesM f (l₁ ++ l₂) = .ok (l₁' ++ l₂') := by
  induction l₁ generalizing l₁' with
  | nil =>
    simp [mapNodesM] at h1
    subst h1
    simpa using h2
  | cons p rest ih =>
    obtain ⟨k, n⟩ := p
    cases hf : f n with
    | error e => simp [mapNodesM, hf] at h1
    | ok n' =>
      cases hr : mapNodesM f rest with
      | error e => simp [mapNodesM, hf, hr] at h1
      | ok rest' =>
        simp [mapNodesM, hf, hr] at h1
        subst h1
        simp [mapNodesM, hf, ih rest' hr]

/-- If the per-node function is idempotent on its successful results, the
whole traversal is. -/
theorem mapNodesM_idem (f : Node → Except PyErr Node)
    (hf : ∀ n n', f n = .ok n' → f n' = .ok n') :
    ∀ (d d' : Document), mapNodesM f d = .ok d' → mapNodesM f d' = .ok d' := by
  intro d
  induction d with
  | nil =>
    intro d' h
    simp [mapNodesM] at h
    subst h
    rfl
  | cons p rest ih =>
    intro d' h
    obtain ⟨k, n⟩ := p
    cases hn : f n with
    | error e => simp [mapNodesM, hn] at h
    | ok n' =>
      cases hr : mapNodesM f rest with
      | error e => simp [mapNodesM, hn, hr] at h
      | ok rest' =>
        simp [mapNodesM, hn, hr] at h
        subst h
        simp [mapNodesM, hf n n' hn, ih rest' hr]

/-- Pointwise relations transport equal projections to equal maps. -/
theorem forall₂_map_eq {α β γ : Type} {R : α → β → Prop} {g₁ : α → γ} {g₂ : β → γ}
    (hR : ∀ p q, R p q → g₁ p = g₂ q) :
    ∀ {l : List α} {l' : List β}, List.Forall₂ R l l' → l.map g₁ = l'.map g₂ := by
  intro l l' h
  induction h with
  | nil => rfl
  | cons hpq _ ih => simp [List.map, hR _ _ hpq, ih]

/-- A successful seed traversal relates input and output pointwise; each
output node arises from its input node by `updateSeedNode` at some draw. -/
theorem updateSeedGo_ok_forall₂ (draws : Nat → Nat) (seed : Option Int) :
    ∀ (j : Nat) (d d' : Document), updateSeedGo draws seed j d = .ok d' →
      List.Forall₂ (fun p q : String × Node =>
        p.1 = q.1 ∧ ∃ i b, updateSeedNode (draws i) seed p.2 = .ok (q.2, b)) d d' := by
  intro j d
  induction d generalizing j with
  | nil =>
    intro d' h
    simp [updateSeedGo] at h
    subst h
    exact List.Forall₂.nil
  | cons p rest ih =>
    intro d' h
    obtain ⟨k, n⟩ := p
    cases hn : updateSeedNode (draws j) seed n with
    | error e => simp [updateSeedGo, hn] at h
    | ok pr =>
      cases hr : updateSeedGo draws seed (if pr.2 then j + 1 else j) rest with
      | error e => simp [updateSeedGo, hn, hr] at h
      | ok rest' =>
        simp [updateSeedGo, hn, hr] at h
        subst h
        refine List.Forall₂.cons ⟨rfl, j, pr.2, ?_⟩ (ih _ _ hr)
        rw [Prod.mk.eta]
        exact hn

/-- If the seed step fixes every node of the document (consuming no
draw), the seed traversal returns the document unchanged. -/
theorem updateSeedGo_id (draws : Nat → Nat) (seed : Option Int) (d : Document)
    (h : ∀ p ∈ d, ∀ r, updateSeedNode r seed p.2 = .ok (p.2, false)) :
    ∀ j, updateSeedGo draws seed j d = .ok d := by
  induction d with
  | nil => intro j; rfl
  | cons p rest ih =>
    intro j
    obtain ⟨k, n⟩ := p
    have hp : updateSeedNode (draws j) seed n = .ok (n, false) :=
      h (k, n) (List.mem_cons_self _ _) (draws j)
    have hr := ih (fun q hq r => h q (List.mem_cons_of_mem _ hq) r) j
    simp [updateSeedGo, hp, hr]

/-! Per-node lemmas: how each loop body acts on a single node. -/

theorem updateImageSizeNode_noop (height width : Int) (n : Node)
    (hwf : wfNode n = true) (hm : matchesImageSize n = false) :
    updateImageSizeNode height width n = .ok n := by
  cases hins : n.inputs with
  | none => simp [updateImageSizeNode, hins]
  | some ins =>
    cases hct : n.class_type with
    | none => simp [wfNode, hins, hct] at hwf
    | some ct =>
      simp only [updateImageSizeNode, hins, hct]
      split
      case isTrue hc =>
        exfalso
        simp [matchesImageSize, hins, hct, hc.1, hc.2] at hm
      case isFalse hc => rfl

theorem updateSeedNode_noop (r : Nat) (seed : Option Int) (n : Node)
    (hwf : wfNode n = true) (hm : matchesSeed n = false) :
    updateSeedNode r seed n = .ok (n, false) := by
  cases hins : n.inputs with
  | none => simp [updateSeedNode, hins]
  | some ins =>
    cases hct : n.class_type with
    | none => simp [wfNode, hins, hct] at hwf
    | some ct =>
      simp only [updateSeedNode, hins, hct]
      split
      case isTrue hc =>
        exfalso
        simp [matchesSeed, hins, hct, hc.1, hc.2] at hm
      case isFalse hc => rfl

theorem updatePromptTextNode_noop (s : String) (n : Node)
    (hwf : wfNode n = true) (hm : matchesText n = false) :
    updatePromptTextNode s n = .ok n := by
  cases hins : n.inputs with
  | none => simp [updatePromptTextNode, hins]
  | some ins =>
    cases hct : n.class_type with
    | none => simp [wfNode, hins, hct] at hwf
    | some ct =>
      simp only [updatePromptTextNode, hins, hct]
      split
      case isTrue hc =>
        exfalso
        simp [matchesText, hins, hct, hc.1, hc.2] at hm
      case isFalse hc => rfl

theorem updateLoraNameNode_noop (s : String) (n : Node)
    (hwf : wfNode n = true) (hsafe : loraSafe n = true)
    (hm : matchesLora n = false) :
    updateLoraNameNode s n = .ok n := by
  cases hins : n.inputs with
  | none => simp [updateLoraNameNode, hins]
  | some ins =>
    cases hct : n.class_type with
    | none => simp [wfNode, hins, hct] at hwf
    | some ct =>
      by_cases h1 : ct = JValue.str "LoraLoader"
      · cases hmeta : n.meta with
        | none => simp [loraSafe, hins, hct, h1, hmeta] at hsafe
        | some m =>
          cases ht : lookupKey m "title" with
          | none => simp [loraSafe, hins, hct, h1, hmeta, ht] at hsafe
          | some t =>
            have h2 : ¬(t = JValue.str "character-lora") := by
              intro h2
              simp [matchesLora, hins, hct, h1, hmeta, ht, h2] at hm
            simp [updateLoraNameNode, hins, hct, h1, hmeta, ht, h2]
      · simp [updateLoraNameNode, hins, hct, h1]

/-- Characterization of a matched `update_prompt_text` step: a node is
rewritten exactly when the placeholder condition fires, and then its
`text` input becomes the supplied string. -/
theorem updatePromptTextNode_ok (s : String) (n n' : Node)
    (hok : updatePromptTextNode s n = .ok n') :
    (placeholderMatch n = false → n' = n) ∧
    (∀ ins, n.inputs = some ins →
      n.class_type = some (JValue.str "CLIPTextEncode") →
      lookupKey ins "text" = some (JValue.str "POSITIVE_PROMT_PLACEHOLDER") →
      n' = { n with inputs := some (setKey ins "text" (JValue.str s)) }) := by
  cases hins : n.inputs with
  | none =>
    have hrw : updatePromptTextNode s n = .ok n := by simp [updatePromptTextNode, hins]
    rw [hrw] at hok
    have hn' : n' = n := (Except.ok.inj hok).symm
    refine ⟨fun _ => hn', fun ins hi _ _ => ?_⟩
    cases hi
  | some ins0 =>
    cases hct : n.class_type with
    | none =>
      have hrw : updatePromptTextNode s n = .error .keyError := by
        simp [updatePromptTextNode, hins, hct]
      rw [hrw] at hok
      cases hok
    | some ct =>
      by_cases h1 : ct = JValue.str "CLIPTextEncode"
      · subst h1
        by_cases h2 : lookupKey ins0 "text" = some (JValue.str "POSITIVE_PROMT_PLACEHOLDER")
        · have h3 : (lookupKey ins0 "text").isSome = true := by simp [h2]
          have hrw : updatePromptTextNode s n =
              .ok { n with inputs := some (setKey ins0 "text" (JValue.str s)) } := by
            simp [updatePromptTextNode, hins, hct, h2, h3]
          rw [hrw] at hok
          have hn' : n' = { n with inputs := some (setKey ins0 "text" (JValue.str s)) } :=
            (Except.ok.inj hok).symm
          refine ⟨fun hpm => ?_, fun ins hi _ _ => ?_⟩
          · exfalso
            simp [placeholderMatch, hins, hct, h2] at hpm
          · have h4 : ins0 = ins := Option.some.inj hi
            rw [hn', ← h4, hct]
        · have hrw : updatePromptTextNode s n = .ok n := by
            by_cases h3 : (lookupKey ins0 "text").isSome = true
            · simp [updatePromptTextNode, hins, hct, h2, h3]
            · simp [updatePromptTextNode, hins, hct, h3]
          rw [hrw] at hok
          have hn' : n' = n := (Except.ok.inj hok).symm
          refine ⟨fun _ => hn', fun ins hi _ ht => ?_⟩
          have h4 : ins0 = ins := Option.some.inj hi
          rw [← h4] at ht
          exact absurd ht h2
      · have hrw : updatePromptTextNode s n = .ok n := by
          simp [updatePromptTextNode, hins, hct, h1]
        rw [hrw] at hok
        have hn' : n' = n := (Except.ok.inj hok).symm
        refine ⟨fun _ => hn', fun ins _ hc _ => ?_⟩
        exact absurd (Option.some.inj hc) h1

/-- Characterization of a matched `update_seed` step with no supplied
seed: the node's `seed` input is overwritten with the random draw. -/
theorem updateSeedNode_none_ok (r : Nat) (n n' : Node) (b : Bool)
    (hok : updateSeedNode r none n = .ok (n', b))
    (hm : matchesSeed n = true) :
    ∃ ins, n.inputs = some ins ∧
      n' = { n with inputs := some (setKey ins "seed" (JValue.num (Int.ofNat r))) } := by
  cases hins : n.inputs with
  | none => simp [matchesSeed, hins] at hm
  | some ins =>
    cases hct : n.class_type with
    | none => simp [matchesSeed, hins, hct] at hm
    | some ct =>
      have h1 : ct = JValue.str "KSampler" ∧ (lookupKey ins "seed").isSome = true := by
        simpa [matchesSeed, hins, hct] using hm
      obtain ⟨hA, hB⟩ := h1
      subst hA
      have hrw : updateSeedNode r none n = .ok ({ n with inputs := some (setKey ins "seed" (JValue.num (Int.ofNat r))) }, true) := by
        simp [updateSeedNode, hins, hct, hB]
      rw [hrw] at hok
      injection hok with hp
      injection hp with hA2 hB2
      refine ⟨ins, rfl, ?_⟩
      rw [← hA2, hct]

/-- Characterization of a matched `update_image_size` step: the node's
`height` and then `width` inputs are overwritten. -/
theorem updateImageSizeNode_matched (height width : Int) (n n' : Node) (ins : Dict)
    (hins : n.inputs = some ins)
    (hct : n.class_type = some (JValue.str "EmptySD3LatentImage"))
    (hh : (lookupKey ins "height").isSome = true)
    (hok : updateImageSizeNode height width n = .ok n') :
    n' = { n with inputs := some (setKey (setKey ins "height" (JValue.num height)) "width" (JValue.num width)) } := by
  have hrw : updateImageSizeNode height width n = .ok { n with inputs := some (setKey (setKey ins "height" (JValue.num height)) "width" (JValue.num width)) } := by
    simp [updateImageSizeNode, hins, hct, hh]
  rw [hrw] at hok
  exact (Except.ok.inj hok).symm

theorem updateImageSizeNode_frame (height width : Int) (n n' : Node)
    (hok : updateImageSizeNode height width n = .ok n') :
    n'.class_type = n.class_type ∧ n'.meta = n.meta := by
  cases hins : n.inputs with
  | none =>
    have hrw : updateImageSizeNode height width n = .ok n := by
      simp [updateImageSizeNode, hins]
    rw [hrw] at hok
    injection hok with hA
    rw [← hA]
    exact ⟨rfl, rfl⟩
  | some ins =>
    cases hct : n.class_type with
    | none =>
      have hrw : updateImageSizeNode height width n = .error .keyError := by
        simp [updateImageSizeNode, hins, hct]
      rw [hrw] at hok
      cases hok
    | some ct =>
      by_cases hc : ct = JValue.str "EmptySD3LatentImage" ∧ (lookupKey ins "height").isSome = true
      · have hrw : updateImageSizeNode height width n = .ok { n with inputs := some (setKey (setKey ins "height" (JValue.num height)) "width" (JValue.num width)) } := by
          simp [updateImageSizeNode, hins, hct, hc.1, hc.2]
        rw [hrw] at hok
        injection hok with hA
        rw [← hA]
        exact ⟨hct, rfl⟩
      · have hrw : updateImageSizeNode height width n = .ok n := by
          simp only [updateImageSizeNode, hins, hct]
          rw [if_neg hc]
        rw [hrw] at hok
        injection hok with hA
        rw [← hA]
        exact ⟨hct, rfl⟩

theorem updateSeedNode_frame (r : Nat) (seed : Option Int) (n n' : Node) (b : Bool)
    (hok : updateSeedNode r seed n = .ok (n', b)) :
    n'.class_type = n.class_type ∧ n'.meta = n.meta := by
  cases hins : n.inputs with
  | none =>
    have hrw : updateSeedNode r seed n = .ok (n, false) := by
      simp [updateSeedNode, hins]
    rw [hrw] at hok
    injection hok with hp
    injection hp with hA hB
    rw [← hA]
    exact ⟨rfl, rfl⟩
  | some ins =>
    cases hct : n.class_type with
    | none =>
      have hrw : updateSeedNode r seed n = .error .keyError := by
        simp [updateSeedNode, hins, hct]
      rw [hrw] at hok
      cases hok
    | some ct =>
      by_cases hc : ct = JValue.str "KSampler" ∧ (lookupKey ins "seed").isSome = true
      · cases seed with
        | none =>
          have hrw : updateSeedNode r none n = .ok ({ n with inputs := some (setKey ins "seed" (JValue.num (Int.ofNat r))) }, true) := by
            simp [updateSeedNode, hins, hct, hc.1, hc.2]
          rw [hrw] at hok
          injection hok with hp
          injection hp with hA hB
          rw [← hA]
          exact ⟨hct, rfl⟩
        | some s0 =>
          have hrw : updateSeedNode r (some s0) n = .ok ({ n with inputs := some (setKey ins "seed" (JValue.num s0)) }, false) := by
            simp [updateSeedNode, hins, hct, hc.1, hc.2]
          rw [hrw] at hok
          injection hok with hp
          injection hp with hA hB
          rw [← hA]
          exact ⟨hct, rfl⟩
      · have hrw : updateSeedNode r seed n = .ok (n, false) := by
          simp only [updateSeedNode, hins, hct]
          rw [if_neg hc]
        rw [hrw] at hok
        injection hok with hp
        injection hp with hA hB
        rw [← hA]
        exact ⟨hct, rfl⟩

theorem updatePromptTextNode_frame (s : String) (n n' : Node)
    (hok : updatePromptTextNode s n = .ok n') :
    n'.class_type = n.class_type ∧ n'.meta = n.meta := by
  cases hins : n.inputs with
  | none =>
    have hrw : updatePromptTextNode s n = .ok n := by
      simp [updatePromptTextNode, hins]
    rw [hrw] at hok
    injection hok with hA
    rw [← hA]
    exact ⟨rfl, rfl⟩
  | some ins =>
    cases hct : n.class_type with
    | none =>
      have hrw : updatePromptTextNode s n = .error .keyError := by
        simp [updatePromptTextNode, hins, hct]
      rw [hrw] at hok
      cases hok
    | some ct =>
      by_cases hc : ct = JValue.str "CLIPTextEncode" ∧ (lookupKey ins "text").isSome = true
      · by_cases hph : lookupKey ins "text" = some (JValue.str "POSITIVE_PROMT_PLACEHOLDER")
        · have hrw : updatePromptTextNode s n = .ok { n with inputs := some (setKey ins "text" (JValue.str s)) } := by
            simp [updatePromptTextNode, hins, hct, hc.1, hc.2, hph]
          rw [hrw] at hok
          injection hok with hA
          rw [← hA]
          exact ⟨hct, rfl⟩
        · have hrw : updatePromptTextNode s n = .ok n := by
            simp only [updatePromptTextNode, hins, hct]
            rw [if_pos hc, if_neg hph]
          rw [hrw] at hok
          injection hok with hA
          rw [← hA]
          exact ⟨hct, rfl⟩
      · have hrw : updatePromptTextNode s n = .ok n := by
          simp only [updatePromptTextNode, hins, hct]
          rw [if_neg hc]
        rw [hrw] at hok
        injection hok with hA
        rw [← hA]
        exact ⟨hct, rfl⟩

theorem updateLoraNameNode_frame (s : String) (n n' : Node)
    (hok : updateLoraNameNode s n = .ok n') :
    n'.class_type = n.class_type ∧ n'.meta = n.meta := by
  cases hins : n.inputs with
  | none =>
    have hrw : updateLoraNameNode s n = .ok n := by
      simp [updateLoraNameNode, hins]
    rw [hrw] at hok
    injection hok with hA
    rw [← hA]
    exact ⟨rfl, rfl⟩
  | some ins =>
    cases hct : n.class_type with
    | none =>
      have hrw : updateLoraNameNode s n = .error .keyError := by
        simp [updateLoraNameNode, hins, hct]
      rw [hrw] at hok
      cases hok
    | some ct =>
      by_cases h1 : ct = JValue.str "LoraLoader"
      · cases hmeta : n.meta with
        | none =>
          have hrw : updateLoraNameNode s n = .error .keyError := by
            simp [updateLoraNameNode, hins, hct, h1, hmeta]
          rw [hrw] at hok
          cases hok
        | some m =>
          cases ht : lookupKey m "title" with
          | none =>
            have hrw : updateLoraNameNode s n = .error .keyError := by
              simp [updateLoraNameNode, hins, hct, h1, hmeta, ht]
            rw [hrw] at hok
            cases hok
          | some t =>
            by_cases h2 : t = JValue.str "character-lora"
            · have hrw : updateLoraNameNode s n = .ok { n with inputs := some (setKey ins "lora_name" (JValue.str s)) } := by
                simp [updateLoraNameNode, hins, hct, h1, hmeta, ht, h2]
              rw [hrw] at hok
              injection hok with hA
              rw [← hA]
              exact ⟨hct, hmeta⟩
            · have hrw : updateLoraNameNode s n = .ok n := by
                simp [updateLoraNameNode, hins, hct, h1, hmeta, ht, h2]
              rw [hrw] at hok
              injection hok with hA
              rw [← hA]
              exact ⟨hct, hmeta⟩
      · have hrw : updateLoraNameNode s n = .ok n := by
          simp [updateLoraNameNode, hins, hct, h1]
        rw [hrw] at hok
        injection hok with hA
        rw [← hA]
        exact ⟨hct, rfl⟩

/-- The image-size step is idempotent on its successful results. -/
theorem updateImageSizeNode_idem (height width : Int) (n n' : Node)
    (hok : updateImageSizeNode height width n = .ok n') :
    updateImageSizeNode height width n' = .ok n' := by
  cases hins : n.inputs with
  | none =>
    have hrw : updateImageSizeNode height width n = .ok n := by
      simp [updateImageSizeNode, hins]
    rw [hrw] at hok
    injection hok with hA
    rw [← hA]
    exact hrw
  | some ins =>
    cases hct : n.class_type with
    | none =>
      have hrw : updateImageSizeNode height width n = .error .keyError := by
        simp [updateImageSizeNode, hins, hct]
      rw [hrw] at hok
      cases hok
    | some ct =>
      by_cases hc : ct = JValue.str "EmptySD3LatentImage" ∧ (lookupKey ins "height").isSome = true
      · have hrw : updateImageSizeNode height width n = .ok { n with inputs := some (setKey (setKey ins "height" (JValue.num height)) "width" (JValue.num width)) } := by
          simp [updateImageSizeNode, hins, hct, hc.1, hc.2]
        rw [hrw] at hok
        injection hok with hA
        rw [← hA]
        have hh' : (lookupKey (setKey (setKey ins "height" (JValue.num height)) "width" (JValue.num width)) "height").isSome = true := by
          rw [lookupKey_setKey_ne _ _ _ _ (by decide), lookupKey_setKey_self]
          rfl
        have hkey : setKey (setKey (setKey (setKey ins "height" (JValue.num height)) "width" (JValue.num width)) "height" (JValue.num height)) "width" (JValue.num width) = setKey (setKey ins "height" (JValue.num height)) "width" (JValue.num width) := by
          rw [setKey_comm_of_isSome (setKey ins "height" (JValue.num height)) "height" "width" (JValue.num height) (JValue.num width) (by rw [lookupKey_setKey_self]; rfl) (by decide)]
          rw [setKey_setKey_same, setKey_setKey_same]
        simp [updateImageSizeNode, hct, hc.1, hh', hkey]
      · have hrw : updateImageSizeNode height width n = .ok n := by
          simp only [updateImageSizeNode, hins, hct]
          rw [if_neg hc]
        rw [hrw] at hok
        injection hok with hA
        rw [← hA]
        exact hrw

/-! Claim theorems. -/

/-- C1, counterexample: `update_prompt_text` does not set the `text`
input of every `CLIPTextEncode` node to the supplied string — a node
whose current `text` is `"hello"` (not the placeholder sentinel) is left
unchanged, so its `text` differs from the supplied string. -/
theorem update_prompt_text_not_unconditional :
    nodeClipHello.class_type = some (JValue.str "CLIPTextEncode") ∧
    nodeClipHello.inputs = some [("text", JValue.str "hello")] ∧
    lookupKey [("text", JValue.str "hello")] "text" = some (JValue.str "hello") ∧
    update_prompt_text docClipHello "another text" = .ok docClipHello ∧
    lookupKey [("text", JValue.str "hello")] "text" ≠ some (JValue.str "another text") := by
  decide

/-- C1, amended: `update_prompt_text` sets the `text` input of a
`CLIPTextEncode` node to the supplied string exactly when its current
value equals the placeholder sentinel `"POSITIVE_PROMT_PLACEHOLDER"`;
every node not matching that condition (including `CLIPTextEncode` nodes
with a different current text) is left unchanged. -/
theorem update_prompt_text_placeholder_only (d d' : Document) (s : String)
    (h : update_prompt_text d s = .ok d') :
    List.Forall₂ (fun p q : String × Node =>
      p.1 = q.1 ∧
      (placeholderMatch p.2 = false → q.2 = p.2) ∧
      (∀ ins, p.2.inputs = some ins →
        p.2.class_type = some (JValue.str "CLIPTextEncode") →
        lookupKey ins "text" = some (JValue.str "POSITIVE_PROMT_PLACEHOLDER") →
        ∃ ins', q.2.inputs = some ins' ∧
          lookupKey ins' "text" = some (JValue.str s))) d d' := by
  refine (mapNodesM_ok_forall₂ _ _ _ h).imp ?_
  rintro p q ⟨hk, hok⟩
  obtain ⟨hA, hB⟩ := updatePromptTextNode_ok s p.2 q.2 hok
  refine ⟨hk, hA, ?_⟩
  intro ins hins hct hph
  have hq := hB ins hins hct hph
  refine ⟨setKey ins "text" (JValue.str s), ?_, lookupKey_setKey_self _ _ _⟩
  rw [hq]

/-- C1, witness: on a one-node document whose `CLIPTextEncode` node holds
the placeholder, the amended statement holds with text `"hello world"`. -/
theorem update_prompt_text_placeholder_only_witness :
    List.Forall₂ (fun p q : String × Node =>
      p.1 = q.1 ∧
      (placeholderMatch p.2 = false → q.2 = p.2) ∧
      (∀ ins, p.2.inputs = some ins →
        p.2.class_type = some (JValue.str "CLIPTextEncode") →
        lookupKey ins "text" = some (JValue.str "POSITIVE_PROMT_PLACEHOLDER") →
        ∃ ins', q.2.inputs = some ins' ∧
          lookupKey ins' "text" = some (JValue.str "hello world"))) docPlaceholder docPlaceholderOut :=
  update_prompt_text_placeholder_only docPlaceholder docPlaceholderOut "hello world" (by decide)

/-- C2: with a valid request body, a template file that is present but
not parseable JSON is reported by `lambda_handler` with statusCode 400
and the message "Invalid JSON in request body" (the `json.JSONDecodeError`
raised while parsing the template is caught by the handler clause meant
for the request body), while a missing template file is reported with
statusCode 500 — so the unparseable-template failure surfaces as a 4xx,
contradicting the claim that it is always a 5xx. -/
theorem template_parse_failure_maps_to_400 :
    lambda_handler eventOnlyPrompt .invalidJson (some "endpoint") dummyBackend drawsZero =
      resp400 "Invalid JSON in request body" ∧
    (resp400 "Invalid JSON in request body").statusCode = 400 ∧
    lambda_handler eventOnlyPrompt .missing (some "endpoint") dummyBackend drawsZero =
      resp500 .fileNotFound ∧
    (resp500 .fileNotFound).statusCode = 500 :=
  ⟨rfl, rfl, rfl, rfl⟩

/-- C6: whenever the parsed request body lacks `positive_prompt`, the
handler returns the 400 `ValidationError` response with a descriptive
message, and the result is the same constant for every template state,
environment, backend and random stream — so no template read, mutation
or backend call can influence it. -/
theorem missing_positive_prompt_is_400_before_template
    (template : TemplateFile) (endpointEnv : Option String)
    (invokeEndpoint : String → Document → BackendResp) (draws : Nat → Nat)
    (req : Request) (hreq : req.positive_prompt = none) :
    lambda_handler { body := some (.parsed req) } template endpointEnv invokeEndpoint draws =
      resp400 "Missing required parameter: positive_prompt" ∧
    (resp400 "Missing required parameter: positive_prompt").statusCode = 400 := by
  constructor
  · simp [lambda_handler, hreq]
  · rfl

/-- C6, witness: a concrete request without `positive_prompt`, evaluated
with a missing template, no environment and a stub backend. -/
theorem missing_positive_prompt_is_400_before_template_witness :
    lambda_handler { body := some (.parsed reqNoPrompt) } .missing none dummyBackend drawsZero =
      resp400 "Missing required parameter: positive_prompt" ∧
    (resp400 "Missing required parameter: positive_prompt").statusCode = 400 :=
  missing_positive_prompt_is_400_before_template .missing none dummyBackend drawsZero reqNoPrompt rfl

/-- C9: patch operations can raise instead of silently skipping: a
`LoraLoader` node without `_meta` (or with `_meta` lacking `title`)
makes `update_lora_name` raise `KeyError`, and a node having `inputs`
but no `class_type` makes each of the four patch functions raise
`KeyError`. -/
theorem patch_can_raise_keyerror :
    update_lora_name [("1", nodeLoraNoMeta)] "y" = .error .keyError ∧
    update_lora_name [("1", nodeLoraEmptyMeta)] "y" = .error .keyError ∧
    update_image_size [("2", nodeNoClassType)] 768 768 = .error .keyError ∧
    update_seed drawsZero [("2", nodeNoClassType)] none = .error .keyError ∧
    update_prompt_text [("2", nodeNoClassType)] "t" = .error .keyError ∧
    update_lora_name [("2", nodeNoClassType)] "y" = .error .keyError := by
  decide

/-- C3, counterexample: `random.randint(0, int(1e10))` has an INCLUSIVE
upper bound, so a legal draw is `10^10` itself; with such a draw the
seed written by `update_seed` into the sampler node equals `10^10`,
which is not strictly below `10^10`. -/
theorem update_seed_can_draw_ten_pow_ten :
    drawsMax 0 ≤ 10000000000 ∧
    update_seed drawsMax docSeed none =
      .ok [("3", { class_type := some (JValue.str "KSampler"), inputs := some [("seed", JValue.num 10000000000)], meta := none })] ∧
    ¬((10000000000 : Int) < 10000000000) := by
  decide

/-- C3, amended: when no seed is supplied, the value written into each
matching sampler node is a `randint(0, int(1e10))` draw, hence a
nonnegative integer at most `10^10` (inclusive — it can equal `10^10`,
not strictly below it). -/
theorem update_seed_random_seed_le_ten_pow_ten
    (draws : Nat → Nat) (d d' : Document)
    (hB : ∀ j, draws j ≤ 10000000000)
    (h : update_seed draws d none = .ok d') :
    List.Forall₂ (fun p q : String × Node =>
      p.1 = q.1 ∧
      (matchesSeed p.2 = true →
        ∃ ins' m, q.2.inputs = some ins' ∧
          lookupKey ins' "seed" = some (JValue.num (Int.ofNat m)) ∧
          m ≤ 10000000000)) d d' := by
  refine (updateSeedGo_ok_forall₂ draws none 0 d d' h).imp ?_
  rintro p q ⟨hk, i, b, hok⟩
  refine ⟨hk, fun hm => ?_⟩
  obtain ⟨ins, hins, hq⟩ := updateSeedNode_none_ok (draws i) p.2 q.2 b hok hm
  refine ⟨setKey ins "seed" (JValue.num (Int.ofNat (draws i))), draws i, ?_,
    lookupKey_setKey_self _ _ _, hB i⟩
  rw [hq]

/-- C3, witness: a draw stream returning `7` stays within the bound on a
one-sampler document. -/
theorem update_seed_random_seed_le_ten_pow_ten_witness :
    List.Forall₂ (fun p q : String × Node =>
      p.1 = q.1 ∧
      (matchesSeed p.2 = true →
        ∃ ins' m, q.2.inputs = some ins' ∧
          lookupKey ins' "seed" = some (JValue.num (Int.ofNat m)) ∧
          m ≤ 10000000000)) docSeed docSeedOut :=
  update_seed_random_seed_le_ten_pow_ten drawsSeven docSeed docSeedOut
    (fun _ => by simp [drawsSeven]) (by decide)

/-- C4: on a document that is well-formed in the spec's sense (every
node dict with `inputs` also has a `class_type`, and `LoraLoader` nodes
carry a `_meta.title`), every patch operation is a silent no-op when no
node matches its target role/field combination: it returns the document
unchanged and raises nothing; in particular `update_seed` on a document
with no matching sampler node returns it unchanged. -/
theorem patch_noop_when_no_match (d : Document)
    (draws : Nat → Nat) (seed : Option Int) (height width : Int) (s lname : String)
    (hwf : ∀ p ∈ d, wfNode p.2 = true) :
    ((∀ p ∈ d, matchesSeed p.2 = false) → update_seed draws d seed = .ok d) ∧
    ((∀ p ∈ d, matchesImageSize p.2 = false) → update_image_size d height width = .ok d) ∧
    ((∀ p ∈ d, matchesText p.2 = false) → update_prompt_text d s = .ok d) ∧
    ((∀ p ∈ d, loraSafe p.2 = true) → (∀ p ∈ d, matchesLora p.2 = false) →
      update_lora_name d lname = .ok d) := by
  refine ⟨?_, ?_, ?_, ?_⟩
  · intro hm
    exact updateSeedGo_id draws seed d
      (fun p hp r => updateSeedNode_noop r seed p.2 (hwf p hp) (hm p hp)) 0
  · intro hm
    exact mapNodesM_id _ d
      (fun p hp => updateImageSizeNode_noop height width p.2 (hwf p hp) (hm p hp))
  · intro hm
    exact mapNodesM_id _ d
      (fun p hp => updatePromptTextNode_noop s p.2 (hwf p hp) (hm p hp))
  · intro hsafe hm
    exact mapNodesM_id _ d
      (fun p hp => updateLoraNameNode_noop lname p.2 (hwf p hp) (hsafe p hp) (hm p hp))

/-- C4, witness: a one-node document of an unrelated role is returned
unchanged by all four patches. -/
theorem patch_noop_when_no_match_witness :
    (∀ p ∈ docOtherOnly, wfNode p.2 = true) ∧
    (((∀ p ∈ docOtherOnly, matchesSeed p.2 = false) →
        update_seed drawsZero docOtherOnly none = .ok docOtherOnly) ∧
      ((∀ p ∈ docOtherOnly, matchesImageSize p.2 = false) →
        update_image_size docOtherOnly 768 768 = .ok docOtherOnly) ∧
      ((∀ p ∈ docOtherOnly, matchesText p.2 = false) →
        update_prompt_text docOtherOnly "t" = .ok docOtherOnly) ∧
      ((∀ p ∈ docOtherOnly, loraSafe p.2 = true) →
        (∀ p ∈ docOtherOnly, matchesLora p.2 = false) →
        update_lora_name docOtherOnly "l" = .ok docOtherOnly)) :=
  ⟨by decide, patch_noop_when_no_match docOtherOnly drawsZero none 768 768 "t" "l" (by decide)⟩

/-- C5, counterexample: the four patches applied in sequence (sizes,
seed, prompt text, adapter name) can add a `width` key to a node's
`inputs`, so the change is not limited to leaf field values: the inputs
key list of the latent node grows from `["height"]` to
`["height", "width"]`. -/
theorem pipeline_not_only_leaf_values :
    update_image_size docLatentNoWidth 768 768 = .ok docLatentWide ∧
    update_seed drawsZero docLatentWide none = .ok docLatentWide ∧
    update_prompt_text docLatentWide "t" = .ok docLatentWide ∧
    update_lora_name docLatentWide "l" = .ok docLatentWide ∧
    docLatentNoWidth.map (fun p => (p.2.inputs.getD []).map Prod.fst) = [["height"]] ∧
    docLatentWide.map (fun p => (p.2.inputs.getD []).map Prod.fst) = [["height", "width"]] := by
  decide

/-- C5, amended: applying `update_image_size`, `update_seed`,
`update_prompt_text` and `update_lora_name` in sequence preserves the
document's node-identifier key list exactly (no nodes added or removed),
and leaves every node's `class_type` and `_meta` unchanged; only nodes'
`inputs` change, and those may gain a `width` or `lora_name` key rather
than only leaf values. -/
theorem pipeline_preserves_node_keys
    (d d1 d2 d3 d4 : Document) (height width : Int) (draws : Nat → Nat)
    (seed : Option Int) (s lname : String)
    (h1 : update_image_size d height width = .ok d1)
    (h2 : update_seed draws d1 seed = .ok d2)
    (h3 : update_prompt_text d2 s = .ok d3)
    (h4 : update_lora_name d3 lname = .ok d4) :
    d4.map Prod.fst = d.map Prod.fst ∧
    d4.map (fun p => p.2.class_type) = d.map (fun p => p.2.class_type) ∧
    d4.map (fun p => p.2.meta) = d.map (fun p => p.2.meta) := by
  have f1 := mapNodesM_ok_forall₂ _ _ _ h1
  have f2 := updateSeedGo_ok_forall₂ draws seed 0 d1 d2 h2
  have f3 := mapNodesM_ok_forall₂ _ _ _ h3
  have f4 := mapNodesM_ok_forall₂ _ _ _ h4
  have k1 : d.map Prod.fst = d1.map Prod.fst := forall₂_map_eq (fun p q hpq => hpq.1) f1
  have k2 : d1.map Prod.fst = d2.map Prod.fst := forall₂_map_eq (fun p q hpq => hpq.1) f2
  have k3 : d2.map Prod.fst = d3.map Prod.fst := forall₂_map_eq (fun p q hpq => hpq.1) f3
  have k4 : d3.map Prod.fst = d4.map Prod.fst := forall₂_map_eq (fun p q hpq => hpq.1) f4
  have c1 : d.map (fun p => p.2.class_type) = d1.map (fun p => p.2.class_type) :=
    forall₂_map_eq (fun p q hpq =>
      ((updateImageSizeNode_frame height width p.2 q.2 hpq.2).1).symm) f1
  have c2 : d1.map (fun p => p.2.class_type) = d2.map (fun p => p.2.class_type) := by
    refine forall₂_map_eq ?_ f2
    rintro p q ⟨hk, i, b, hok⟩
    exact ((updateSeedNode_frame (draws i) seed p.2 q.2 b hok).1).symm
  have c3 : d2.map (fun p => p.2.class_type) = d3.map (fun p => p.2.class_type) :=
    forall₂_map_eq (fun p q hpq => ((updatePromptTextNode_frame s p.2 q.2 hpq.2).1).symm) f3
  have c4 : d3.map (fun p => p.2.class_type) = d4.map (fun p => p.2.class_type) :=
    forall₂_map_eq (fun p q hpq => ((updateLoraNameNode_frame lname p.2 q.2 hpq.2).1).symm) f4
  have m1 : d.map (fun p => p.2.meta) = d1.map (fun p => p.2.meta) :=
    forall₂_map_eq (fun p q hpq =>
      ((updateImageSizeNode_frame height width p.2 q.2 hpq.2).2).symm) f1
  have m2 : d1.map (fun p => p.2.meta) = d2.map (fun p => p.2.meta) := by
    refine forall₂_map_eq ?_ f2
    rintro p q ⟨hk, i, b, hok⟩
    exact ((updateSeedNode_frame (draws i) seed p.2 q.2 b hok).2).symm
  have m3 : d2.map (fun p => p.2.meta) = d3.map (fun p => p.2.meta) :=
    forall₂_map_eq (fun p q hpq => ((updatePromptTextNode_frame s p.2 q.2 hpq.2).2).symm) f3
  have m4 : d3.map (fun p => p.2.meta) = d4.map (fun p => p.2.meta) :=
    forall₂_map_eq (fun p q hpq => ((updateLoraNameNode_frame lname p.2 q.2 hpq.2).2).symm) f4
  exact ⟨(k1.trans (k2.trans (k3.trans k4))).symm,
    (c1.trans (c2.trans (c3.trans c4))).symm,
    (m1.trans (m2.trans (m3.trans m4))).symm⟩

/-- C5, witness: the pipeline run on the latent-node document preserves
its node-identifier list, `class_type`s and `_meta`s. -/
theorem pipeline_preserves_node_keys_witness :
    docLatentWide.map Prod.fst = docLatentNoWidth.map Prod.fst ∧
    docLatentWide.map (fun p => p.2.class_type) =
      docLatentNoWidth.map (fun p => p.2.class_type) ∧
    docLatentWide.map (fun p => p.2.meta) = docLatentNoWidth.map (fun p => p.2.meta) :=
  pipeline_preserves_node_keys docLatentNoWidth docLatentWide docLatentWide docLatentWide
    docLatentWide 768 768 drawsZero none "t" "l" (by decide) (by decide) (by decide) (by decide)

/-- C7: on a document whose only node matching the latent-image-size
criteria is a `EmptySD3LatentImage` node with an `inputs.height` (here
512), `update_image_size` with 768×768 rewrites exactly that node —
its `height` and `width` inputs both become 768 — and every other node
of the document is returned unchanged and in place. -/
theorem update_image_size_single_latent
    (pre post : Document) (key : String) (n : Node) (ins : Dict)
    (hct : n.class_type = some (JValue.str "EmptySD3LatentImage"))
    (hins : n.inputs = some ins)
    (hh : lookupKey ins "height" = some (JValue.num 512))
    (hothers : ∀ p ∈ pre ++ post, wfNode p.2 = true ∧ matchesImageSize p.2 = false) :
    update_image_size (pre ++ (key, n) :: post) 768 768 =
      .ok (pre ++ (key, { n with inputs := some (setKey (setKey ins "height" (JValue.num 768)) "width" (JValue.num 768)) }) :: post) ∧
    lookupKey (setKey (setKey ins "height" (JValue.num 768)) "width" (JValue.num 768)) "height" =
      some (JValue.num 768) ∧
    lookupKey (setKey (setKey ins "height" (JValue.num 768)) "width" (JValue.num 768)) "width" =
      some (JValue.num 768) := by
  refine ⟨?_, ?_, lookupKey_setKey_self _ _ _⟩
  · have hpre : mapNodesM (updateImageSizeNode 768 768) pre = .ok pre :=
      mapNodesM_id _ pre (fun p hp =>
        updateImageSizeNode_noop 768 768 p.2 (hothers p (List.mem_append_left post hp)).1
          (hothers p (List.mem_append_left post hp)).2)
    have hpost : mapNodesM (updateImageSizeNode 768 768) post = .ok post :=
      mapNodesM_id _ post (fun p hp =>
        updateImageSizeNode_noop 768 768 p.2 (hothers p (List.mem_append_right pre hp)).1
          (hothers p (List.mem_append_right pre hp)).2)
    have hhs : (lookupKey ins "height").isSome = true := by rw [hh]; rfl
    have hmid : updateImageSizeNode 768 768 n = .ok { n with inputs := some (setKey (setKey ins "height" (JValue.num 768)) "width" (JValue.num 768)) } := by
      simp [updateImageSizeNode, hins, hct, hhs]
    have hmidpost : mapNodesM (updateImageSizeNode 768 768) ((key, n) :: post) =
        .ok ((key, { n with inputs := some (setKey (setKey ins "height" (JValue.num 768)) "width" (JValue.num 768)) }) :: post) := by
      simp [mapNodesM, hmid, hpost]
    exact mapNodesM_append _ pre ((key, n) :: post) pre _ hpre hmidpost
  · rw [lookupKey_setKey_ne _ _ _ _ (by decide), lookupKey_setKey_self]

/-- C7, witness: a two-node document (one latent node with height 512,
one unrelated node) evaluated concretely. -/
theorem update_image_size_single_latent_witness :
    update_image_size ([] ++ ("5", nodeLatent512) :: [("9", nodeOther)]) 768 768 =
      .ok ([] ++ ("5", { nodeLatent512 with inputs := some (setKey (setKey [("height", JValue.num 512), ("width", JValue.num 512)] "height" (JValue.num 768)) "width" (JValue.num 768)) }) :: [("9", nodeOther)]) ∧
    lookupKey (setKey (setKey [("height", JValue.num 512), ("width", JValue.num 512)] "height" (JValue.num 768)) "width" (JValue.num 768)) "height" = some (JValue.num 768) ∧
    lookupKey (setKey (setKey [("height", JValue.num 512), ("width", JValue.num 512)] "height" (JValue.num 768)) "width" (JValue.num 768)) "width" = some (JValue.num 768) :=
  update_image_size_single_latent [] [("9", nodeOther)] "5" nodeLatent512
    [("height", JValue.num 512), ("width", JValue.num 512)] rfl rfl (by decide) (by decide)

/-- C8: `update_image_size` is idempotent: a second application with the
same height and width returns the once-patched document unchanged. -/
theorem update_image_size_idempotent (d d' : Document) (height width : Int)
    (h : update_image_size d height width = .ok d') :
    update_image_size d' height width = .ok d' :=
  mapNodesM_idem _ (fun n n' => updateImageSizeNode_idem height width n n') d d' h

/-- C8, witness: re-applying 768×768 to the already-patched latent
document returns it unchanged. -/
theorem update_image_size_idempotent_witness :
    update_image_size docLatentWide 768 768 = .ok docLatentWide :=
  update_image_size_idempotent docLatentNoWidth docLatentWide 768 768 (by decide)

/-- C10: on a successful `update_image_size`, every
`EmptySD3LatentImage` node whose `inputs` has a `height` key but no
`width` key gains a new `width` key holding the supplied width: its
inputs key list grows by `"width"` at the end, so the inputs key set is
not preserved. -/
theorem update_image_size_adds_width_key (d d' : Document) (height width : Int)
    (hok : update_image_size d height width = .ok d') :
    List.Forall₂ (fun p q : String × Node =>
      p.1 = q.1 ∧
      (∀ ins, p.2.inputs = some ins →
        p.2.class_type = some (JValue.str "EmptySD3LatentImage") →
        (lookupKey ins "height").isSome = true →
        lookupKey ins "width" = none →
        ∃ ins', q.2.inputs = some ins' ∧
          lookupKey ins' "width" = some (JValue.num width) ∧
          ins'.map Prod.fst = ins.map Prod.fst ++ ["width"])) d d' := by
  refine (mapNodesM_ok_forall₂ _ _ _ hok).imp ?_
  rintro p q ⟨hk, hq⟩
  refine ⟨hk, fun ins hins hct hh hwnone => ?_⟩
  have hmid := updateImageSizeNode_matched height width p.2 q.2 ins hins hct hh hq
  refine ⟨setKey (setKey ins "height" (JValue.num height)) "width" (JValue.num width),
    ?_, lookupKey_setKey_self _ _ _, ?_⟩
  · rw [hmid]
  · have hw2 : lookupKey (setKey ins "height" (JValue.num height)) "width" = none := by
      rw [lookupKey_setKey_ne _ _ _ _ (by decide)]
      exact hwnone
    rw [setKey_append_of_none _ _ _ hw2, List.map_append, keys_setKey_of_isSome _ _ _ hh]
    rfl

/-- C10, witness: the latent node with only a `height` input gains a
`width` key. -/
theorem update_image_size_adds_width_key_witness :
    List.Forall₂ (fun p q : String × Node =>
      p.1 = q.1 ∧
      (∀ ins, p.2.inputs = some ins →
        p.2.class_type = some (JValue.str "EmptySD3LatentImage") →
        (lookupKey ins "height").isSome = true →
        lookupKey ins "width" = none →
        ∃ ins', q.2.inputs = some ins' ∧
          lookupKey ins' "width" = some (JValue.num 768) ∧
          ins'.map Prod.fst = ins.map Prod.fst ++ ["width"])) docLatentNoWidth docLatentWide :=
  update_image_size_adds_width_key docLatentNoWidth docLatentWide 768 768 (by decide)

end ComfyLambda
